import Mathlib

/-!
Shallow embedding of the hermes LNURL-pay callback pipeline
(src/router/handlers/lnurlp/callback.rs and src/utils.rs).

The callback handler, the settlement watcher loop, the notify and
direct-message functions are translated from the source. The Invoice
Ledger (InvoiceBmc), the Recipient Directory (Nip05RelaysBmc) and the
LnurlStatus tag live in modules of the repository that are not part of
the two source files here; they are modelled from the specification
(sections 3, 4.4 and 6) and marked as such in their doc comments.
External collaborators (lightning client, mint client, nostr client)
are black-boxed behind environment records, as the specification
prescribes.

Rust u64 and i64 casts are modelled on Nat and Int with explicit
two-complement reinterpretation, so the `amount as i64` store and the
`invoice.amount as u64` read are faithful to the source.
-/

namespace Hermes

/-- Rust cast `n as i64` for a u64 value `n < 2 ^ 64`: two-complement
reinterpretation of the bit pattern. -/
def u64_as_i64 (n : Nat) : Int :=
  if n < 2 ^ 63 then (n : Int) else (n : Int) - 2 ^ 64

/-- Rust cast `i as u64` for an i64 value: two-complement reinterpretation
of the bit pattern. -/
def i64_as_u64 (i : Int) : Nat :=
  (i % (2 ^ 64 : Int)).toNat

/-- Modelled from the spec: RecipientContact row (section 3), the Rust
`Nip05Relays` model struct is not among the given source files. Fields:
public username, messaging public key, transport endpoints. -/
structure Nip05Relays where
  name : String
  pubkey : String
  relays : List String
  deriving Repr, DecidableEq

/-- Status of a ledger invoice row: `Pending` or `Settled` (section 3). -/
inductive InvoiceStatus where
  | Pending
  | Settled
  deriving Repr, DecidableEq

/-- Modelled from the spec: persisted Invoice row (section 3). The amount
is stored as a signed 64-bit integer, mirroring the `amount as i64` store
in `handle_callback`. -/
structure Invoice where
  id : Nat
  op_id : String
  amount : Int
  bolt11 : String
  status : InvoiceStatus
  deriving Repr, DecidableEq

/-- Argument of the ledger insert, mirroring `InvoiceForCreate` in the
source (op_id, amount, bolt11). -/
structure InvoiceForCreate where
  op_id : String
  amount : Int
  bolt11 : String
  deriving Repr, DecidableEq

/-- The invoice ledger: the list of persisted invoice rows. -/
abbrev Ledger := List Invoice

/-- Modelled from the spec: Invoice Ledger `insert(record) -> id`
(section 4.4); the new row is persisted with `status = Pending`
(section 4.1) under a fresh ledger-assigned id. -/
def InvoiceBmc.create (ledger : Ledger) (c : InvoiceForCreate) : Nat × Ledger :=
  let id := ledger.length
  (id, { id := id, op_id := c.op_id, amount := c.amount, bolt11 := c.bolt11,
         status := InvoiceStatus.Pending } :: ledger)

/-- Modelled from the spec: Invoice Ledger `settle(id) -> updatedRecord`
(section 4.4), idempotent per row; fails when no row with the id exists. -/
def InvoiceBmc.settle (ledger : Ledger) (id : Nat) :
    Except String (Invoice × Ledger) :=
  match ledger.find? (fun r => r.id == id) with
  | none => Except.error "invoice not found"
  | some inv =>
    Except.ok ({ inv with status := InvoiceStatus.Settled },
      ledger.map (fun r =>
        if r.id == id then { r with status := InvoiceStatus.Settled } else r))

/-- The recipient directory: registered username to contact record. -/
abbrev Directory := String → Option Nip05Relays

/-- Structured error carrying the HTTP status code, mirroring `AppError`. -/
structure AppError where
  status : Nat
  message : String
  deriving Repr, DecidableEq

/-- Modelled from the spec: Recipient Directory
`resolve(name) -> RecipientContact`, failing with NotFound (HTTP 404)
when no registration exists (sections 4.4 and 6). -/
def Nip05RelaysBmc.get_by (dir : Directory) (name : String) :
    Except AppError Nip05Relays :=
  match dir name with
  | none => Except.error { status := 404, message := "nip05relays not found" }
  | some r => Except.ok r

/-- Modelled from the spec: the LNURL status tag of the response envelope,
serialized as the string OK on success (section 6); the Rust `LnurlStatus`
enum lives in the parent lnurlp module, not among the given files. -/
inductive LnurlStatus where
  | Ok
  | Error
  deriving Repr, DecidableEq

/-- Query parameters of the callback, from `LnurlCallbackParams`:
a u64 amount in millisatoshi and three optional string parameters. -/
structure LnurlCallbackParams where
  amount : Nat
  nonce : Option String
  comment : Option String
  proofofpayer : Option String
  deriving Repr, DecidableEq

/-- Optional success action of the response, from
`LnurlCallbackSuccessAction`. -/
structure LnurlCallbackSuccessAction where
  tag : String
  message : String
  deriving Repr, DecidableEq

/-- Response envelope of the callback, from `LnurlCallbackResponse`;
the verify URL is kept as its string rendering. -/
structure LnurlCallbackResponse where
  status : LnurlStatus
  reason : Option String
  pr : String
  verify : String
  success_action : Option LnurlCallbackSuccessAction
  routes : Option (List String)
  deriving Repr, DecidableEq

/-- Minimum accepted amount in millisatoshi, from `MIN_AMOUNT`. -/
def MIN_AMOUNT : Nat := 1000

/-- Payment-status stream events, from the external `LnReceiveState`
enum of the lightning client: two terminal variants handled by the
watcher and non-terminal variants that it ignores. -/
inductive LnReceiveState where
  | Created
  | WaitingForPayment
  | Canceled (reason : String)
  | Funded
  | AwaitingFunds
  | Claimed
  deriving Repr, DecidableEq

/-- True for the event variants the watcher loop ignores, i.e. everything
except `Canceled` and `Claimed`. -/
def LnReceiveState.isIgnored : LnReceiveState → Bool
  | LnReceiveState.Canceled _ => false
  | LnReceiveState.Claimed => false
  | _ => true

/-- Payload of the outbound direct message built by `send_nostr_dm`:
the mint operation id, the amount, and the string-encoded notes. -/
structure DmPayload where
  operationId : String
  amount : Nat
  notes : String
  deriving Repr, DecidableEq

/-- An outbound direct message: recipient public key and JSON payload. -/
structure Dm where
  recipient : String
  payload : DmPayload
  deriving Repr, DecidableEq

/-- Environment of `notify_user`: the external mint client call
`spend_notes` (returning the mint operation id and the notes bundle) and
whether the nostr `send_direct_msg` call succeeds. -/
structure NotifyEnv where
  spend_notes : Nat → Except String (String × String)
  send_ok : Bool

/-- Validity window passed to `spend_notes`, from
`Duration::from_secs(604800)` (seven days). -/
def SPEND_NOTES_VALIDITY_SECS : Nat := 604800

/-- Translation of `send_nostr_dm`: build the JSON payload from the mint
operation id, the amount and the string-encoded notes, and send it as a
direct message addressed to the recipient public key. -/
def send_nostr_dm (env : NotifyEnv) (nip05relays : Nip05Relays)
    (operation_id : String) (amount : Nat) (notes : String) : Except String Dm :=
  if env.send_ok then
    Except.ok { recipient := nip05relays.pubkey,
                payload := { operationId := operation_id, amount := amount,
                             notes := notes } }
  else Except.error "send_direct_msg failed"

/-- Observable outcome of one `notify_user` call: its result, the mint
calls made (amount and validity window), and the direct messages sent. -/
structure NotifyOutcome where
  result : Except String Unit
  mintCalls : List (Nat × Nat)
  sentDms : List Dm
  deriving Repr

/-- Translation of `notify_user`: mint notes for the amount with the
seven-day validity window, then send the nostr direct message. -/
def notify_user (env : NotifyEnv) (amount : Nat) (nip05relays : Nip05Relays) :
    NotifyOutcome :=
  match env.spend_notes amount with
  | Except.error e =>
    { result := Except.error e,
      mintCalls := [(amount, SPEND_NOTES_VALIDITY_SECS)], sentDms := [] }
  | Except.ok (operation_id, notes) =>
    match send_nostr_dm env nip05relays operation_id amount notes with
    | Except.error e =>
      { result := Except.error e,
        mintCalls := [(amount, SPEND_NOTES_VALIDITY_SECS)], sentDms := [] }
    | Except.ok dm =>
      { result := Except.ok (),
        mintCalls := [(amount, SPEND_NOTES_VALIDITY_SECS)], sentDms := [dm] }

/-- Result of a detached task: finished normally, or died on a failed
`expect` assertion (a panic confined to that task). -/
inductive TaskResult where
  | ok
  | panicked (msg : String)
  deriving Repr, DecidableEq

/-- Observable outcome of one watcher task run: its task result, the
ledger after the run, how many settle calls were made, the mint calls,
the direct messages sent, the cancellation reasons reported, and how many
stream events were consumed. -/
structure WatchOutcome where
  result : TaskResult
  ledger : Ledger
  settle_calls : Nat
  mint_calls : List (Nat × Nat)
  sent_dms : List Dm
  canceled_reasons : List String
  consumed : Nat
  deriving Repr

/-- Translation of the task body of `spawn_invoice_subscription`: consume
the event stream sequentially; on `Canceled` report the reason and stop;
on `Claimed` settle the ledger row (expect: cannot fail), notify the user
with the settled amount read back as u64 (expect: cannot fail), and stop;
ignore every other variant and continue. -/
def spawn_invoice_subscription (env : NotifyEnv) (id : Nat)
    (nip05relays : Nip05Relays) (ledger : Ledger) :
    List LnReceiveState → WatchOutcome
  | [] =>
    { result := TaskResult.ok, ledger := ledger, settle_calls := 0,
      mint_calls := [], sent_dms := [], canceled_reasons := [], consumed := 0 }
  | op_state :: rest =>
    match op_state with
    | LnReceiveState.Canceled reason =>
      { result := TaskResult.ok, ledger := ledger, settle_calls := 0,
        mint_calls := [], sent_dms := [], canceled_reasons := [reason],
        consumed := 1 }
    | LnReceiveState.Claimed =>
      match InvoiceBmc.settle ledger id with
      | Except.error _ =>
        { result := TaskResult.panicked "settling invoice cant fail",
          ledger := ledger, settle_calls := 1, mint_calls := [],
          sent_dms := [], canceled_reasons := [], consumed := 1 }
      | Except.ok (invoice, ledger2) =>
        let n := notify_user env (i64_as_u64 invoice.amount) nip05relays
        match n.result with
        | Except.error _ =>
          { result := TaskResult.panicked "notifying user cant fail",
            ledger := ledger2, settle_calls := 1, mint_calls := n.mintCalls,
            sent_dms := n.sentDms, canceled_reasons := [], consumed := 1 }
        | Except.ok _ =>
          { result := TaskResult.ok, ledger := ledger2, settle_calls := 1,
            mint_calls := n.mintCalls, sent_dms := n.sentDms,
            canceled_reasons := [], consumed := 1 }
    | _ =>
      let o := spawn_invoice_subscription env id nip05relays ledger rest
      { o with consumed := o.consumed + 1 }

/-- Model of `subscribe_ln_receive` of the external lightning client:
subscribing succeeds exactly for an operation the client knows. -/
def subscribe_ln_receive (registered : List String) (op_id : String) :
    Except String Unit :=
  if op_id ∈ registered then Except.ok ()
  else Except.error "unknown operation"

/-- Environment of `handle_callback`: recipient directory, the external
`create_bolt11_invoice` call (amount and description to operation id and
encoded invoice), the operations the lightning client already knows, and
the configured domain and port for the verify URL. -/
structure CallbackEnv where
  dir : Directory
  create_bolt11_invoice : Nat → String → Except String (String × String)
  registered_ops : List String
  domain : String
  port : Nat

/-- Record of a spawned watcher: the ledger id of the invoice row and the
resolved recipient contact handed to the task. -/
structure WatcherSetup where
  id : Nat
  nip05relays : Nip05Relays
  deriving Repr, DecidableEq

/-- Observable outcome of one `handle_callback` call: the HTTP result,
the ledger after the call, the directory lookups made, the
invoice-service calls made (amount and description), and the watcher
spawned, if any. -/
structure CallbackOutcome where
  result : Except AppError LnurlCallbackResponse
  ledger : Ledger
  directory_lookups : List String
  invoice_service_calls : List (Nat × String)
  spawned : Option WatcherSetup
  deriving Repr

/-- Translation of `handle_callback`: reject amounts below `MIN_AMOUNT`
with a 400 error; resolve the username; create a bolt11 invoice with the
fixed description; insert the Pending ledger row storing the amount as
i64; subscribe to the just-created operation (expect: cannot fail) and
spawn the watcher; answer with the success envelope whose verify URL
embeds domain, port, username and operation id. -/
def handle_callback (env : CallbackEnv) (username : String)
    (params : LnurlCallbackParams) (ledger : Ledger) : CallbackOutcome :=
  if params.amount < MIN_AMOUNT then
    { result := Except.error { status := 400, message := "Amount < MIN_AMOUNT" },
      ledger := ledger, directory_lookups := [], invoice_service_calls := [],
      spawned := none }
  else
    match Nip05RelaysBmc.get_by env.dir username with
    | Except.error e =>
      { result := Except.error e, ledger := ledger,
        directory_lookups := [username], invoice_service_calls := [],
        spawned := none }
    | Except.ok nip05relays =>
      match env.create_bolt11_invoice params.amount "test invoice" with
      | Except.error e =>
        { result := Except.error { status := 500, message := e },
          ledger := ledger, directory_lookups := [username],
          invoice_service_calls := [(params.amount, "test invoice")],
          spawned := none }
      | Except.ok (op_id, pr) =>
        let created := InvoiceBmc.create ledger
          { op_id := op_id, amount := u64_as_i64 params.amount, bolt11 := pr }
        match subscribe_ln_receive (op_id :: env.registered_ops) op_id with
        | Except.error e =>
          { result := Except.error { status := 500, message := e },
            ledger := created.2, directory_lookups := [username],
            invoice_service_calls := [(params.amount, "test invoice")],
            spawned := none }
        | Except.ok _ =>
          { result := Except.ok
              { status := LnurlStatus.Ok, reason := none, pr := pr,
                verify := "http://" ++ env.domain ++ ":" ++ toString env.port ++
                  "/lnurlp/" ++ username ++ "/verify/" ++ op_id,
                success_action := none, routes := none },
            ledger := created.2, directory_lookups := [username],
            invoice_service_calls := [(params.amount, "test invoice")],
            spawned := some { id := created.1, nip05relays := nip05relays } }

/-- Composition of one callback request with the detached watcher run on
a given event stream: the HTTP result is the first component and is
produced before (and independently of) the watcher outcome. -/
def pipeline (cenv : CallbackEnv) (nenv : NotifyEnv) (username : String)
    (params : LnurlCallbackParams) (ledger : Ledger)
    (events : List LnReceiveState) : CallbackOutcome × Option WatchOutcome :=
  let c := handle_callback cenv username params ledger
  match c.spawned with
  | none => (c, none)
  | some w =>
    (c, some (spawn_invoice_subscription nenv w.id w.nip05relays c.ledger events))

/-- Translation of `empty_string_as_none` from src/utils.rs: an absent or
empty string deserializes to the absent value, any other string is parsed
and a parse failure is a deserialization error. -/
def empty_string_as_none {T : Type} (fromStr : String → Except String T)
    (opt : Option String) : Except String (Option T) :=
  match opt with
  | none => Except.ok none
  | some s => if s = "" then Except.ok none else (fromStr s).map some

/-- Sample recipient contact used by the concrete witnesses. -/
def rW : Nip05Relays :=
  { name := "alice", pubkey := "alicepubkey", relays := ["relay1"] }

/-- Sample notify environment whose mint and send calls succeed. -/
def nenvW : NotifyEnv :=
  { spend_notes := fun _ => Except.ok ("mintop77", "notesblob"),
    send_ok := true }

/-- Sample pending ledger row used by the concrete witnesses. -/
def invW : Invoice :=
  { id := 0, op_id := "op123", amount := 5000, bolt11 := "lnbc50u",
    status := InvoiceStatus.Pending }

/-- Sample callback environment with one registered user. -/
def cenvW : CallbackEnv :=
  { dir := fun n => if n = "alice" then some rW else none,
    create_bolt11_invoice := fun _ _ => Except.ok ("op123", "lnbc50u"),
    registered_ops := [], domain := "example.com", port := 9090 }

/-- Sample fallible parse function used by the deserializer witness. -/
def natParserW (s : String) : Except String Nat :=
  if s = "7" then Except.ok 7 else Except.error "invalid digit"

/-! Helper lemmas shared by the claim theorems. -/

theorem u64_round_trip (n : Nat) (h : n < 2 ^ 64) :
    i64_as_u64 (u64_as_i64 n) = n := by
  unfold u64_as_i64 i64_as_u64
  split <;> omega

theorem settle_of_find {ledger : Ledger} {id : Nat} {inv : Invoice}
    (h : ledger.find? (fun r => r.id == id) = some inv) :
    InvoiceBmc.settle ledger id =
      Except.ok ({ inv with status := InvoiceStatus.Settled },
        ledger.map (fun r =>
          if r.id == id then { r with status := InvoiceStatus.Settled } else r)) := by
  simp [InvoiceBmc.settle, h]

theorem settled_row_mem {ledger : Ledger} {id : Nat} {inv : Invoice}
    (h : ledger.find? (fun r => r.id == id) = some inv) :
    { inv with status := InvoiceStatus.Settled } ∈
      ledger.map (fun r =>
        if r.id == id then { r with status := InvoiceStatus.Settled } else r) := by
  have hmem : inv ∈ ledger := List.mem_of_find?_eq_some h
  have hp : (inv.id == id) = true := by simpa using List.find?_some h
  exact List.mem_map.mpr ⟨inv, hmem, by simp [hp]⟩

theorem watch_skips_ignored (env : NotifyEnv) (id : Nat) (r : Nip05Relays)
    (ledger : Ledger) (pre evs : List LnReceiveState)
    (hpre : ∀ e ∈ pre, e.isIgnored = true) :
    spawn_invoice_subscription env id r ledger (pre ++ evs) =
      { spawn_invoice_subscription env id r ledger evs with
        consumed := (spawn_invoice_subscription env id r ledger evs).consumed
          + pre.length } := by
  induction pre with
  | nil => rfl
  | cons e pre ih =>
    have he : e.isIgnored = true := hpre e (List.mem_cons_self _ _)
    have hpre2 : ∀ x ∈ pre, x.isIgnored = true :=
      fun x hx => hpre x (List.mem_cons_of_mem _ hx)
    cases e <;> simp [LnReceiveState.isIgnored] at he <;>
      simp [spawn_invoice_subscription, ih hpre2, Nat.add_assoc,
        Nat.add_comm 1 pre.length]

theorem notify_user_eq (env : NotifyEnv) (amount : Nat) (r : Nip05Relays)
    (mint_op notes : String)
    (hmint : env.spend_notes amount = Except.ok (mint_op, notes))
    (hsend : env.send_ok = true) :
    notify_user env amount r =
      { result := Except.ok (),
        mintCalls := [(amount, SPEND_NOTES_VALIDITY_SECS)],
        sentDms := [{ recipient := r.pubkey,
                      payload := { operationId := mint_op, amount := amount,
                                   notes := notes } }] } := by
  simp [notify_user, send_nostr_dm, hmint, hsend]

theorem watch_claimed_head (nenv : NotifyEnv) (id : Nat) (r : Nip05Relays)
    (ledger : Ledger) (rest : List LnReceiveState) (inv : Invoice)
    (mop nts : String)
    (hfind : ledger.find? (fun x => x.id == id) = some inv)
    (hm : nenv.spend_notes (i64_as_u64 inv.amount) = Except.ok (mop, nts))
    (hsend : nenv.send_ok = true) :
    spawn_invoice_subscription nenv id r ledger
        (LnReceiveState.Claimed :: rest) =
      { result := TaskResult.ok,
        ledger := ledger.map (fun x =>
          if x.id == id then { x with status := InvoiceStatus.Settled } else x),
        settle_calls := 1,
        mint_calls := [(i64_as_u64 inv.amount, SPEND_NOTES_VALIDITY_SECS)],
        sent_dms := [{ recipient := r.pubkey,
                       payload := { operationId := mop,
                                    amount := i64_as_u64 inv.amount,
                                    notes := nts } }],
        canceled_reasons := [], consumed := 1 } := by
  simp only [spawn_invoice_subscription, settle_of_find hfind]
  simp [notify_user_eq nenv (i64_as_u64 inv.amount) r mop nts hm hsend]

/-! Claim theorems. -/

/-- C3: a callback request with amount strictly below 1000 msat is rejected
with a 400 client error, and no ledger row is created, no recipient lookup
and no invoice-service call is performed. -/
theorem below_min_amount_rejected (env : CallbackEnv) (username : String)
    (params : LnurlCallbackParams) (ledger : Ledger)
    (h : params.amount < 1000) :
    handle_callback env username params ledger =
      { result := Except.error { status := 400, message := "Amount < MIN_AMOUNT" },
        ledger := ledger, directory_lookups := [], invoice_service_calls := [],
        spawned := none } := by
  simp [handle_callback, MIN_AMOUNT, h]

/-- Witness for C3: the concrete 500 msat request is rejected with the 400
error and produces no ledger row, no lookup and no invoice-service call. -/
theorem below_min_amount_rejected_witness :
    handle_callback cenvW "alice"
      { amount := 500, nonce := none, comment := none, proofofpayer := none }
      [] =
      { result := Except.error { status := 400, message := "Amount < MIN_AMOUNT" },
        ledger := [], directory_lookups := [], invoice_service_calls := [],
        spawned := none } :=
  below_min_amount_rejected cenvW "alice"
    { amount := 500, nonce := none, comment := none, proofofpayer := none }
    [] (by decide)

/-- C4: a callback with a valid amount but an unregistered username returns
the 404 not-found error before any invoice-service call: the ledger is
unchanged, no upstream invoice is requested and no watcher is spawned. -/
theorem unknown_username_not_found (env : CallbackEnv) (username : String)
    (params : LnurlCallbackParams) (ledger : Ledger)
    (hamt : MIN_AMOUNT ≤ params.amount) (hdir : env.dir username = none) :
    handle_callback env username params ledger =
      { result := Except.error { status := 404, message := "nip05relays not found" },
        ledger := ledger, directory_lookups := [username],
        invoice_service_calls := [], spawned := none } := by
  have h1 : ¬ params.amount < MIN_AMOUNT := Nat.not_lt.mpr hamt
  simp [handle_callback, Nip05RelaysBmc.get_by, hdir, h1]

/-- Witness for C4: the concrete request for unregistered bob returns the
404 error with no invoice-service call and an unchanged ledger. -/
theorem unknown_username_not_found_witness :
    handle_callback cenvW "bob"
      { amount := 5000, nonce := none, comment := none, proofofpayer := none }
      [] =
      { result := Except.error { status := 404, message := "nip05relays not found" },
        ledger := [], directory_lookups := ["bob"],
        invoice_service_calls := [], spawned := none } :=
  unknown_username_not_found cenvW "bob"
    { amount := 5000, nonce := none, comment := none, proofofpayer := none }
    [] (by decide) rfl

/-- C5: an accepted callback returns the success envelope with status OK,
pr equal to the invoice string returned by the issuer, verify equal to
http with domain, port, username and operation id, and reason,
successAction and routes absent. -/
theorem success_envelope (env : CallbackEnv) (username : String)
    (params : LnurlCallbackParams) (ledger : Ledger) (r : Nip05Relays)
    (op_id pr : String)
    (hamt : MIN_AMOUNT ≤ params.amount)
    (hdir : env.dir username = some r)
    (hcreate : env.create_bolt11_invoice params.amount "test invoice" =
      Except.ok (op_id, pr)) :
    (handle_callback env username params ledger).result =
      Except.ok
        { status := LnurlStatus.Ok, reason := none, pr := pr,
          verify := "http://" ++ env.domain ++ ":" ++ toString env.port ++
            "/lnurlp/" ++ username ++ "/verify/" ++ op_id,
          success_action := none, routes := none } := by
  have h1 : ¬ params.amount < MIN_AMOUNT := Nat.not_lt.mpr hamt
  simp [handle_callback, Nip05RelaysBmc.get_by, hdir, h1, hcreate,
    subscribe_ln_receive]

/-- Witness for C5: the concrete accepted request for alice yields the OK
envelope with the issuer invoice string and the expected verify URL. -/
theorem success_envelope_witness :
    (handle_callback cenvW "alice"
      { amount := 5000, nonce := none, comment := none, proofofpayer := none }
      []).result =
      Except.ok
        { status := LnurlStatus.Ok, reason := none, pr := "lnbc50u",
          verify := "http://" ++ cenvW.domain ++ ":" ++ toString cenvW.port ++
            "/lnurlp/" ++ "alice" ++ "/verify/" ++ "op123",
          success_action := none, routes := none } :=
  success_envelope cenvW "alice"
    { amount := 5000, nonce := none, comment := none, proofofpayer := none }
    [] rW "op123" "lnbc50u" (by decide) rfl rfl

/-- C7: one successful delivery sends exactly one direct message, addressed
to the recipient public key, whose payload carries the mint operation id
returned by spend_notes (not the invoice operation id), the amount, and
the string-encoded notes; exactly one mint call is made. -/
theorem notify_sends_single_dm (env : NotifyEnv) (amount : Nat)
    (r : Nip05Relays) (mint_op notes : String)
    (hmint : env.spend_notes amount = Except.ok (mint_op, notes))
    (hsend : env.send_ok = true) :
    notify_user env amount r =
      { result := Except.ok (),
        mintCalls := [(amount, SPEND_NOTES_VALIDITY_SECS)],
        sentDms := [{ recipient := r.pubkey,
                      payload := { operationId := mint_op, amount := amount,
                                   notes := notes } }] } :=
  notify_user_eq env amount r mint_op notes hmint hsend

/-- Witness for C7: the concrete delivery to alice sends the single direct
message carrying the mint operation id, the amount and the notes. -/
theorem notify_sends_single_dm_witness :
    notify_user nenvW 5000 rW =
      { result := Except.ok (),
        mintCalls := [(5000, SPEND_NOTES_VALIDITY_SECS)],
        sentDms := [{ recipient := rW.pubkey,
                      payload := { operationId := "mintop77", amount := 5000,
                                   notes := "notesblob" } }] } :=
  notify_sends_single_dm nenvW 5000 rW "mintop77" "notesblob" rfl rfl

/-- C9: two callback requests identical except in the optional nonce,
comment and proofofpayer parameters perform the same invoice-service call
with the same fixed description, create the same ledger record and return
the same response: the whole observable outcome coincides. -/
theorem optional_params_unobservable (env : CallbackEnv) (username : String)
    (ledger : Ledger) (p1 p2 : LnurlCallbackParams)
    (h : p1.amount = p2.amount) :
    handle_callback env username p1 ledger =
      handle_callback env username p2 ledger := by
  unfold handle_callback
  rw [h]

/-- Witness for C9: supplying concrete nonce, comment and proofofpayer
values yields the same outcome as omitting all three. -/
theorem optional_params_unobservable_witness :
    handle_callback cenvW "alice"
      { amount := 5000, nonce := none, comment := none, proofofpayer := none }
      [] =
      handle_callback cenvW "alice"
        { amount := 5000, nonce := some "n1", comment := some "hello",
          proofofpayer := some "pk" } [] :=
  optional_params_unobservable cenvW "alice" []
    { amount := 5000, nonce := none, comment := none, proofofpayer := none }
    { amount := 5000, nonce := some "n1", comment := some "hello",
      proofofpayer := some "pk" } rfl

/-- C10: an absent optional parameter and an empty-string one both
deserialize to the absent value, while a non-empty string is parsed, a
parse success wrapping the value and a parse failure surfacing as a
deserialization error. -/
theorem empty_string_as_none_absent_equiv {T : Type}
    (fromStr : String → Except String T) (s : String) (hs : s ≠ "") :
    empty_string_as_none fromStr none = Except.ok none ∧
    empty_string_as_none fromStr (some "") = Except.ok none ∧
    empty_string_as_none fromStr (some s) = (fromStr s).map some ∧
    (∀ t, fromStr s = Except.ok t →
      empty_string_as_none fromStr (some s) = Except.ok (some t)) ∧
    (∀ e, fromStr s = Except.error e →
      empty_string_as_none fromStr (some s) = Except.error e) := by
  refine ⟨rfl, rfl, by simp [empty_string_as_none, hs], ?_, ?_⟩
  · intro t ht
    simp [empty_string_as_none, hs, ht, Except.map]
  · intro e he
    simp [empty_string_as_none, hs, he, Except.map]

/-- Witness for C10: with a concrete numeric parser, absent and empty
inputs give the absent value and the non-empty input 7 parses. -/
theorem empty_string_as_none_absent_equiv_witness :
    empty_string_as_none natParserW none = Except.ok none ∧
    empty_string_as_none natParserW (some "") = Except.ok none ∧
    empty_string_as_none natParserW (some "7") = (natParserW "7").map some ∧
    (∀ t, natParserW "7" = Except.ok t →
      empty_string_as_none natParserW (some "7") = Except.ok (some t)) ∧
    (∀ e, natParserW "7" = Except.error e →
      empty_string_as_none natParserW (some "7") = Except.error e) :=
  empty_string_as_none_absent_equiv natParserW "7" (by decide)

/-- C1: when the settlement stream delivers a Claimed event (even more than
once), the watcher settles the ledger row exactly once, invokes minting and
delivery with the settled amount and the resolved recipient exactly once,
and stops consuming the stream at that event. -/
theorem claimed_settles_and_notifies_once (nenv : NotifyEnv) (id : Nat)
    (r : Nip05Relays) (ledger : Ledger) (pre rest : List LnReceiveState)
    (inv : Invoice)
    (hpre : ∀ e ∈ pre, e.isIgnored = true)
    (hfind : ledger.find? (fun x => x.id == id) = some inv)
    (hmint : (nenv.spend_notes (i64_as_u64 inv.amount)).isOk = true)
    (hsend : nenv.send_ok = true) :
    (spawn_invoice_subscription nenv id r ledger
        (pre ++ LnReceiveState.Claimed :: rest)).result = TaskResult.ok ∧
    (spawn_invoice_subscription nenv id r ledger
        (pre ++ LnReceiveState.Claimed :: rest)).settle_calls = 1 ∧
    (spawn_invoice_subscription nenv id r ledger
        (pre ++ LnReceiveState.Claimed :: rest)).mint_calls.length = 1 ∧
    (spawn_invoice_subscription nenv id r ledger
        (pre ++ LnReceiveState.Claimed :: rest)).sent_dms.length = 1 ∧
    (spawn_invoice_subscription nenv id r ledger
        (pre ++ LnReceiveState.Claimed :: rest)).consumed = pre.length + 1 ∧
    { inv with status := InvoiceStatus.Settled } ∈
      (spawn_invoice_subscription nenv id r ledger
        (pre ++ LnReceiveState.Claimed :: rest)).ledger := by
  cases hm : nenv.spend_notes (i64_as_u64 inv.amount) with
  | error e => rw [hm] at hmint; simp [Except.isOk, Except.toBool] at hmint
  | ok p =>
    obtain ⟨mop, nts⟩ := p
    rw [watch_skips_ignored nenv id r ledger pre
        (LnReceiveState.Claimed :: rest) hpre,
      watch_claimed_head nenv id r ledger rest inv mop nts hfind hm hsend]
    exact ⟨rfl, rfl, rfl, rfl, Nat.add_comm 1 pre.length,
      settled_row_mem hfind⟩

/-- Witness for C1: a stream delivering Claimed twice after one ignored
event settles the sample row once, mints and delivers once, and is
consumed only up to the first Claimed. -/
theorem claimed_settles_and_notifies_once_witness :
    (spawn_invoice_subscription nenvW 0 rW [invW]
        ([LnReceiveState.Created] ++ LnReceiveState.Claimed ::
          [LnReceiveState.Claimed])).result = TaskResult.ok ∧
    (spawn_invoice_subscription nenvW 0 rW [invW]
        ([LnReceiveState.Created] ++ LnReceiveState.Claimed ::
          [LnReceiveState.Claimed])).settle_calls = 1 ∧
    (spawn_invoice_subscription nenvW 0 rW [invW]
        ([LnReceiveState.Created] ++ LnReceiveState.Claimed ::
          [LnReceiveState.Claimed])).mint_calls.length = 1 ∧
    (spawn_invoice_subscription nenvW 0 rW [invW]
        ([LnReceiveState.Created] ++ LnReceiveState.Claimed ::
          [LnReceiveState.Claimed])).sent_dms.length = 1 ∧
    (spawn_invoice_subscription nenvW 0 rW [invW]
        ([LnReceiveState.Created] ++ LnReceiveState.Claimed ::
          [LnReceiveState.Claimed])).consumed =
      [LnReceiveState.Created].length + 1 ∧
    { invW with status := InvoiceStatus.Settled } ∈
      (spawn_invoice_subscription nenvW 0 rW [invW]
        ([LnReceiveState.Created] ++ LnReceiveState.Claimed ::
          [LnReceiveState.Claimed])).ledger :=
  claimed_settles_and_notifies_once nenvW 0 rW [invW]
    [LnReceiveState.Created] [LnReceiveState.Claimed] invW
    (by decide) rfl rfl rfl

/-- C2: when the settlement stream delivers a Canceled event, the watcher
reports the reason, stops consuming at that event, performs no ledger
write and no minting or delivery, and the invoice row stays Pending;
other variants before it are ignored with consumption continuing. -/
theorem canceled_leaves_pending (nenv : NotifyEnv) (id : Nat)
    (r : Nip05Relays) (ledger : Ledger) (pre rest : List LnReceiveState)
    (reason : String) (inv : Invoice)
    (hpre : ∀ e ∈ pre, e.isIgnored = true)
    (hfind : ledger.find? (fun x => x.id == id) = some inv)
    (hpend : inv.status = InvoiceStatus.Pending) :
    (spawn_invoice_subscription nenv id r ledger
        (pre ++ LnReceiveState.Canceled reason :: rest)).result =
      TaskResult.ok ∧
    (spawn_invoice_subscription nenv id r ledger
        (pre ++ LnReceiveState.Canceled reason :: rest)).canceled_reasons =
      [reason] ∧
    (spawn_invoice_subscription nenv id r ledger
        (pre ++ LnReceiveState.Canceled reason :: rest)).ledger = ledger ∧
    (spawn_invoice_subscription nenv id r ledger
        (pre ++ LnReceiveState.Canceled reason :: rest)).settle_calls = 0 ∧
    (spawn_invoice_subscription nenv id r ledger
        (pre ++ LnReceiveState.Canceled reason :: rest)).mint_calls = [] ∧
    (spawn_invoice_subscription nenv id r ledger
        (pre ++ LnReceiveState.Canceled reason :: rest)).sent_dms = [] ∧
    (spawn_invoice_subscription nenv id r ledger
        (pre ++ LnReceiveState.Canceled reason :: rest)).consumed =
      pre.length + 1 ∧
    (spawn_invoice_subscription nenv id r ledger
        (pre ++ LnReceiveState.Canceled reason :: rest)).ledger.find?
        (fun x => x.id == id) = some inv ∧
    inv.status = InvoiceStatus.Pending := by
  rw [watch_skips_ignored nenv id r ledger pre
    (LnReceiveState.Canceled reason :: rest) hpre]
  exact ⟨rfl, rfl, rfl, rfl, rfl, rfl, Nat.add_comm 1 pre.length, hfind, hpend⟩

/-- Witness for C2: a stream delivering Canceled (reason timeout) after one
ignored event reports the reason, leaves the sample ledger unchanged with
the row Pending, and neither mints nor delivers. -/
theorem canceled_leaves_pending_witness :
    (spawn_invoice_subscription nenvW 0 rW [invW]
        ([LnReceiveState.WaitingForPayment] ++
          LnReceiveState.Canceled "timeout" ::
          [LnReceiveState.Claimed])).result = TaskResult.ok ∧
    (spawn_invoice_subscription nenvW 0 rW [invW]
        ([LnReceiveState.WaitingForPayment] ++
          LnReceiveState.Canceled "timeout" ::
          [LnReceiveState.Claimed])).canceled_reasons = ["timeout"] ∧
    (spawn_invoice_subscription nenvW 0 rW [invW]
        ([LnReceiveState.WaitingForPayment] ++
          LnReceiveState.Canceled "timeout" ::
          [LnReceiveState.Claimed])).ledger = [invW] ∧
    (spawn_invoice_subscription nenvW 0 rW [invW]
        ([LnReceiveState.WaitingForPayment] ++
          LnReceiveState.Canceled "timeout" ::
          [LnReceiveState.Claimed])).settle_calls = 0 ∧
    (spawn_invoice_subscription nenvW 0 rW [invW]
        ([LnReceiveState.WaitingForPayment] ++
          LnReceiveState.Canceled "timeout" ::
          [LnReceiveState.Claimed])).mint_calls = [] ∧
    (spawn_invoice_subscription nenvW 0 rW [invW]
        ([LnReceiveState.WaitingForPayment] ++
          LnReceiveState.Canceled "timeout" ::
          [LnReceiveState.Claimed])).sent_dms = [] ∧
    (spawn_invoice_subscription nenvW 0 rW [invW]
        ([LnReceiveState.WaitingForPayment] ++
          LnReceiveState.Canceled "timeout" ::
          [LnReceiveState.Claimed])).consumed =
      [LnReceiveState.WaitingForPayment].length + 1 ∧
    (spawn_invoice_subscription nenvW 0 rW [invW]
        ([LnReceiveState.WaitingForPayment] ++
          LnReceiveState.Canceled "timeout" ::
          [LnReceiveState.Claimed])).ledger.find?
        (fun x => x.id == 0) = some invW ∧
    invW.status = InvoiceStatus.Pending :=
  canceled_leaves_pending nenvW 0 rW [invW]
    [LnReceiveState.WaitingForPayment] [LnReceiveState.Claimed]
    "timeout" invW (by decide) rfl rfl

/-- C6: for an invoice that reaches delivery, the amount requested in the
callback equals the amount persisted in the ledger row (read back through
the i64 store), equals the amount passed to the minting service, equals
the amount encoded in the delivery payload. -/
theorem amount_round_trip (cenv : CallbackEnv) (nenv : NotifyEnv)
    (username : String) (params : LnurlCallbackParams) (ledger : Ledger)
    (r : Nip05Relays) (op_id pr mop nts : String) (rest : List LnReceiveState)
    (hamt : MIN_AMOUNT ≤ params.amount) (h64 : params.amount < 2 ^ 64)
    (hdir : cenv.dir username = some r)
    (hcreate : cenv.create_bolt11_invoice params.amount "test invoice" =
      Except.ok (op_id, pr))
    (hmint : nenv.spend_notes params.amount = Except.ok (mop, nts))
    (hsend : nenv.send_ok = true) :
    ∃ w : WatcherSetup,
      (handle_callback cenv username params ledger).spawned = some w ∧
      (∃ row ∈ (handle_callback cenv username params ledger).ledger,
        row.id = w.id ∧ i64_as_u64 row.amount = params.amount) ∧
      (spawn_invoice_subscription nenv w.id w.nip05relays
          (handle_callback cenv username params ledger).ledger
          (LnReceiveState.Claimed :: rest)).mint_calls =
        [(params.amount, SPEND_NOTES_VALIDITY_SECS)] ∧
      (spawn_invoice_subscription nenv w.id w.nip05relays
          (handle_callback cenv username params ledger).ledger
          (LnReceiveState.Claimed :: rest)).sent_dms =
        [{ recipient := w.nip05relays.pubkey,
           payload := { operationId := mop, amount := params.amount,
                        notes := nts } }] := by
  have h1 : ¬ params.amount < MIN_AMOUNT := Nat.not_lt.mpr hamt
  have hru : i64_as_u64 (u64_as_i64 params.amount) = params.amount :=
    u64_round_trip _ h64
  have hled : (handle_callback cenv username params ledger).ledger =
      { id := ledger.length, op_id := op_id, amount := u64_as_i64 params.amount,
        bolt11 := pr, status := InvoiceStatus.Pending } :: ledger := by
    simp [handle_callback, Nip05RelaysBmc.get_by, hdir, h1, hcreate,
      subscribe_ln_receive, InvoiceBmc.create]
  have hsp : (handle_callback cenv username params ledger).spawned =
      some { id := ledger.length, nip05relays := r } := by
    simp [handle_callback, Nip05RelaysBmc.get_by, hdir, h1, hcreate,
      subscribe_ln_receive, InvoiceBmc.create]
  have hfind :
      List.find? (fun x => x.id == ledger.length)
        ({ id := ledger.length, op_id := op_id,
           amount := u64_as_i64 params.amount, bolt11 := pr,
           status := InvoiceStatus.Pending } :: ledger) =
        some { id := ledger.length, op_id := op_id,
               amount := u64_as_i64 params.amount, bolt11 := pr,
               status := InvoiceStatus.Pending } :=
    List.find?_cons_of_pos ledger (by simp)
  have hm2 :
      nenv.spend_notes
        (i64_as_u64 ({ id := ledger.length, op_id := op_id,
                       amount := u64_as_i64 params.amount, bolt11 := pr,
                       status := InvoiceStatus.Pending } : Invoice).amount) =
        Except.ok (mop, nts) := by
    simpa [hru] using hmint
  have hwc := watch_claimed_head nenv ledger.length r
    ({ id := ledger.length, op_id := op_id, amount := u64_as_i64 params.amount,
       bolt11 := pr, status := InvoiceStatus.Pending } :: ledger) rest
    { id := ledger.length, op_id := op_id, amount := u64_as_i64 params.amount,
      bolt11 := pr, status := InvoiceStatus.Pending } mop nts hfind hm2 hsend
  refine ⟨{ id := ledger.length, nip05relays := r }, hsp, ?_, ?_, ?_⟩
  · rw [hled]
    exact ⟨_, List.mem_cons_self _ _, rfl, hru⟩
  · simp only [hled]
    simp [hwc, hru]
  · simp only [hled]
    simp [hwc, hru]

/-- Witness for C6: the concrete accepted 5000 msat request for alice,
settled by a Claimed event, mints 5000 and delivers a payload whose amount
is 5000, matching the persisted row. -/
theorem amount_round_trip_witness :
    ∃ w : WatcherSetup,
      (handle_callback cenvW "alice"
        { amount := 5000, nonce := none, comment := none, proofofpayer := none }
        []).spawned = some w ∧
      (∃ row ∈ (handle_callback cenvW "alice"
          { amount := 5000, nonce := none, comment := none,
            proofofpayer := none } []).ledger,
        row.id = w.id ∧ i64_as_u64 row.amount = 5000) ∧
      (spawn_invoice_subscription nenvW w.id w.nip05relays
          (handle_callback cenvW "alice"
            { amount := 5000, nonce := none, comment := none,
              proofofpayer := none } []).ledger
          (LnReceiveState.Claimed :: [])).mint_calls =
        [(5000, SPEND_NOTES_VALIDITY_SECS)] ∧
      (spawn_invoice_subscription nenvW w.id w.nip05relays
          (handle_callback cenvW "alice"
            { amount := 5000, nonce := none, comment := none,
              proofofpayer := none } []).ledger
          (LnReceiveState.Claimed :: [])).sent_dms =
        [{ recipient := w.nip05relays.pubkey,
           payload := { operationId := "mintop77", amount := 5000,
                        notes := "notesblob" } }] :=
  amount_round_trip cenvW nenvW "alice"
    { amount := 5000, nonce := none, comment := none, proofofpayer := none }
    [] rW "op123" "lnbc50u" "mintop77" "notesblob" []
    (by decide) (by decide) rfl rfl rfl rfl

/-- C8: the three cannot-fail assertions are invariants: subscribing to a
just-created operation succeeds, settling a just-inserted row succeeds,
and notifying succeeds whenever mint and send succeed; when a background
settle or notify does fail, the watcher task alone ends panicked, and the
callback result already produced does not depend on the watcher run. -/
theorem cant_fail_assertions (cenv : CallbackEnv) (nenv : NotifyEnv)
    (reg : List String) (op : String) (ledger : Ledger)
    (c : InvoiceForCreate) (a : Nat) (r : Nip05Relays)
    (hmint : (nenv.spend_notes a).isOk = true)
    (hsend : nenv.send_ok = true) :
    subscribe_ln_receive (op :: reg) op = Except.ok () ∧
    (InvoiceBmc.settle (InvoiceBmc.create ledger c).2
      (InvoiceBmc.create ledger c).1).isOk = true ∧
    (notify_user nenv a r).result = Except.ok () ∧
    (∀ (nenv2 : NotifyEnv) (id : Nat) (r2 : Nip05Relays) (led : Ledger),
      (InvoiceBmc.settle led id).isOk = false →
      (spawn_invoice_subscription nenv2 id r2 led
        [LnReceiveState.Claimed]).result =
        TaskResult.panicked "settling invoice cant fail") ∧
    (∀ (nenv2 : NotifyEnv) (id : Nat) (r2 : Nip05Relays) (led led2 : Ledger)
      (inv : Invoice),
      InvoiceBmc.settle led id = Except.ok (inv, led2) →
      (notify_user nenv2 (i64_as_u64 inv.amount) r2).result.isOk = false →
      (spawn_invoice_subscription nenv2 id r2 led
        [LnReceiveState.Claimed]).result =
        TaskResult.panicked "notifying user cant fail") ∧
    (∀ (nenv2 : NotifyEnv) (username : String) (params : LnurlCallbackParams)
      (led : Ledger) (events events2 : List LnReceiveState),
      (pipeline cenv nenv2 username params led events).1 =
      (pipeline cenv nenv2 username params led events2).1) := by
  refine ⟨?_, ?_, ?_, ?_, ?_, ?_⟩
  · simp [subscribe_ln_receive]
  · simp [InvoiceBmc.create, InvoiceBmc.settle, Except.isOk, Except.toBool]
  · cases hm : nenv.spend_notes a with
    | error e => rw [hm] at hmint; simp [Except.isOk, Except.toBool] at hmint
    | ok p =>
      obtain ⟨mop, nts⟩ := p
      rw [notify_user_eq nenv a r mop nts hm hsend]
  · intro nenv2 id r2 led hfail
    cases hs : InvoiceBmc.settle led id with
    | error e => simp [spawn_invoice_subscription, hs]
    | ok p => rw [hs] at hfail; simp [Except.isOk, Except.toBool] at hfail
  · intro nenv2 id r2 led led2 inv hset hnf
    simp only [spawn_invoice_subscription, hset]
    cases hnr : (notify_user nenv2 (i64_as_u64 inv.amount) r2).result with
    | error e => simp [hnr]
    | ok u => rw [hnr] at hnf; simp [Except.isOk, Except.toBool] at hnf
  · intro nenv2 username params led events events2
    cases h : (handle_callback cenv username params led).spawned <;>
      simp [pipeline, h]

/-- Witness for C8: at a concrete operation, a fresh row and a succeeding
notify environment, the three assertions hold, failures only panic the
watcher task, and the callback result ignores the watcher run. -/
theorem cant_fail_assertions_witness :
    subscribe_ln_receive ("op123" :: []) "op123" = Except.ok () ∧
    (InvoiceBmc.settle
      (InvoiceBmc.create [] { op_id := "op123", amount := 5, bolt11 := "b" }).2
      (InvoiceBmc.create [] { op_id := "op123", amount := 5, bolt11 := "b" }).1).isOk
      = true ∧
    (notify_user nenvW 5000 rW).result = Except.ok () ∧
    (∀ (nenv2 : NotifyEnv) (id : Nat) (r2 : Nip05Relays) (led : Ledger),
      (InvoiceBmc.settle led id).isOk = false →
      (spawn_invoice_subscription nenv2 id r2 led
        [LnReceiveState.Claimed]).result =
        TaskResult.panicked "settling invoice cant fail") ∧
    (∀ (nenv2 : NotifyEnv) (id : Nat) (r2 : Nip05Relays) (led led2 : Ledger)
      (inv : Invoice),
      InvoiceBmc.settle led id = Except.ok (inv, led2) →
      (notify_user nenv2 (i64_as_u64 inv.amount) r2).result.isOk = false →
      (spawn_invoice_subscription nenv2 id r2 led
        [LnReceiveState.Claimed]).result =
        TaskResult.panicked "notifying user cant fail") ∧
    (∀ (nenv2 : NotifyEnv) (username : String) (params : LnurlCallbackParams)
      (led : Ledger) (events events2 : List LnReceiveState),
      (pipeline cenvW nenv2 username params led events).1 =
      (pipeline cenvW nenv2 username params led events2).1) :=
  cant_fail_assertions cenvW nenvW [] "op123" []
    { op_id := "op123", amount := 5, bolt11 := "b" } 5000 rW rfl rfl

end Hermes
